import Mathlib

/-!
Verification of `django_signals_demo_py.py`, a three-part demonstration of
Django-style signal semantics built on a simulated `Signal` class.

The Python code is shallowly embedded as follows:
* a receiver (handler) is a function `α → σ → σ × Option PyErr`: it takes the
  dispatch payload (the `sender` together with the keyword arguments of
  `send`), the current mutable state (trace / clock / fake database), and
  returns the updated state together with `some e` when it raises the Python
  exception `e` (side effects performed before the raise persist, as in
  Python) or `none` when it returns normally;
* `Signal.connect` appends the receiver to `_receivers` and returns the
  receiver itself (mirroring `self._receivers.append(func); return func`);
* `Signal.send` runs the receivers in list order, threading the state, and
  stops at the first receiver that raises, propagating its exception
  (mirroring `for receiver in self._receivers: receiver(sender=sender,
  **kwargs)`).
-/

namespace SignalsDemo

/-- A Python exception value, identified by its message. -/
inductive PyErr
  | exc (msg : String)
deriving DecidableEq

/-- A dispatch receiver: payload, state in; state and optional raised
exception out. -/
abbrev Receiver (α σ : Type) := α → σ → σ × Option PyErr

/-- Embedding of the Python class `Signal`: its only field is the list
`self._receivers`, initialised to `[]` by `__init__`. -/
structure Signal (α σ : Type) where
  receivers : List (Receiver α σ)

/-- Embedding of `Signal.connect`: `self._receivers.append(func); return func`.  Appends at
the end, no uniqueness check, and hands the function back (decorator use). -/
def Signal.connect (s : Signal α σ) (func : Receiver α σ) :
    Signal α σ × Receiver α σ :=
  ({ receivers := s.receivers ++ [func] }, func)

/-- The loop body of `Signal.send`: run the receivers in list order on the
threaded state; a raising receiver ends the loop and its exception
propagates. -/
def sendList : List (Receiver α σ) → α → σ → σ × Option PyErr
  | [], _, st => (st, none)
  | r :: rest, a, st =>
    match r a st with
    | (st2, none) => sendList rest a st2
    | (st2, some e) => (st2, some e)

/-- Embedding of `Signal.send(sender, **kwargs)`: the payload `a` packages `sender` and the
keyword arguments; the receivers run synchronously in registration order. -/
def Signal.send (s : Signal α σ) (a : α) (st : σ) : σ × Option PyErr :=
  sendList s.receivers a st

/-- Register a list of handlers one after another via `connect`. -/
def connectAll (s : Signal α σ) : List (Receiver α σ) → Signal α σ
  | [] => s
  | f :: fs => connectAll (s.connect f).1 fs

/-- A fresh `Signal()` as produced by `__init__`. -/
def Signal.mk0 : Signal α σ := { receivers := [] }

/-! ### Instrumented receivers

To observe which handlers run, in which order, and with which payload, we use
a trace state: each instrumented receiver appends its own index paired with
the payload it received. -/

/-- Invocation trace: which receiver (by index) ran, with which payload. -/
abbrev Trace (α : Type) := List (Nat × α)

/-- A receiver that records its invocation and returns normally. -/
def okReceiver (i : Nat) : Receiver α (Trace α) :=
  fun a t => (t ++ [(i, a)], none)

/-- A receiver that records its invocation and then raises `e`. -/
def raiseReceiver (i : Nat) (e : PyErr) : Receiver α (Trace α) :=
  fun a t => (t ++ [(i, a)], some e)

theorem connectAll_receivers (fs : List (Receiver α σ)) :
    ∀ s : Signal α σ, (connectAll s fs).receivers = s.receivers ++ fs := by
  induction fs with
  | nil => intro s; simp [connectAll]
  | cons f fs ih =>
      intro s
      simp [connectAll, Signal.connect, ih]

theorem sendList_okReceivers (is : List Nat) (a : α) :
    ∀ t : Trace α,
      sendList (is.map okReceiver) a t = (t ++ is.map (fun i => (i, a)), none) := by
  induction is with
  | nil => intro t; simp [sendList]
  | cons i is ih =>
      intro t
      simp [sendList, okReceiver, ih]

/-- C1: for every list of N handlers registered via `connect` on a fresh
`Signal`, one call to `send` invokes each handler exactly once, in
registration order, passing it the payload (`sender` plus keyword context),
and returns normally only after the last handler has returned: the trace
grows by exactly one record per registered handler, in registration order,
each carrying the payload. -/
theorem send_runs_handlers_in_order (is : List Nat) (a : α) (t : Trace α) :
    (connectAll Signal.mk0 (is.map okReceiver)).send a t
      = (t ++ is.map (fun i => (i, a)), none) := by
  simp [Signal.send, connectAll_receivers, Signal.mk0, sendList_okReceivers]

/-- C4: if a handler raises during `send`, the handlers registered after it
(an arbitrary list `rest`) are never invoked — the result does not depend on
them and the trace ends at the raising handler — and the exception `e`
reaches the `send` caller unchanged. -/
theorem send_aborts_on_raise (is : List Nat) (k : Nat) (e : PyErr)
    (rest : List (Receiver α (Trace α))) (a : α) (t : Trace α) :
    (connectAll Signal.mk0 (is.map okReceiver ++ raiseReceiver k e :: rest)).send a t
      = (t ++ is.map (fun i => (i, a)) ++ [(k, a)], some e) := by
  induction is generalizing t with
  | nil =>
      simp [Signal.send, connectAll_receivers, Signal.mk0, sendList, raiseReceiver]
  | cons i is ih =>
      simp only [Signal.send, connectAll_receivers, Signal.mk0, List.nil_append] at ih ⊢
      simp only [List.map_cons, List.cons_append, sendList, okReceiver, List.append_eq]
      rw [ih]
      simp

/-- C5: `connect` appends the handler at the end of the receiver list and
returns the very handler it was given; connecting the same handler twice
leaves it present twice, and a subsequent `send` invokes it twice. -/
theorem connect_appends_and_returns (s : Signal α σ) (f : Receiver α σ)
    (k : Nat) (a : α) (t : Trace α) :
    (s.connect f).1.receivers = s.receivers ++ [f]
    ∧ (s.connect f).2 = f
    ∧ (((Signal.mk0.connect (okReceiver k)).1.connect (okReceiver k)).1.send a t
        = (t ++ [(k, a), (k, a)], none)) := by
  refine ⟨rfl, rfl, ?_⟩
  simp [Signal.connect, Signal.mk0, Signal.send, sendList, okReceiver]

/-! ### C7: the receiver list is mutated only by `connect` -/

/-- A step of client interaction with a `Signal`: either register a handler
or dispatch a payload. -/
inductive Op (α σ : Type)
  | connect (f : Receiver α σ)
  | send (a : α)

/-- Run a sequence of operations against a signal and a state: `connect`
extends the signal, `send` threads the state (its possible exception is
irrelevant to the receiver list). -/
def runOps : List (Op α σ) → Signal α σ → σ → Signal α σ × σ
  | [], s, st => (s, st)
  | Op.connect f :: rest, s, st => runOps rest (s.connect f).1 st
  | Op.send a :: rest, s, st => runOps rest s (s.send a st).1

/-- The handlers passed to `connect`, in call order. -/
def connectedHandlers : List (Op α σ) → List (Receiver α σ)
  | [] => []
  | Op.connect f :: rest => f :: connectedHandlers rest
  | Op.send _ :: rest => connectedHandlers rest

theorem runOps_receivers (ops : List (Op α σ)) :
    ∀ (s : Signal α σ) (st : σ),
      (runOps ops s st).1.receivers = s.receivers ++ connectedHandlers ops := by
  induction ops with
  | nil => intro s st; simp [runOps, connectedHandlers]
  | cons o rest ih =>
      intro s st
      cases o with
      | connect f => simp [runOps, connectedHandlers, ih, Signal.connect]
      | send a => simp [runOps, connectedHandlers, ih]

/-- C7: over any sequence of `connect` and `send` operations starting from a
fresh `Signal`, the receiver list equals exactly the handlers passed to
`connect`, in call order — `send` never adds, removes, reorders or
deduplicates entries. -/
theorem receivers_only_mutated_by_connect (ops : List (Op α σ)) (st : σ) :
    (runOps ops (Signal.mk0 : Signal α σ) st).1.receivers = connectedHandlers ops := by
  simp [runOps_receivers, Signal.mk0]

/-! ### Question 1 — synchronous dispatch (clock model)

The first demo attaches `slow_signal_handler`, which calls `time.sleep(5)`,
and measures `end - start` around `User.create`.  Real time is modelled by a
logical clock threaded through the state: `time.sleep(t)` advances the clock
by `t` seconds, and `time.time()` reads it. -/

/-- The payload of `post_save.send(sender=cls, instance=user)`: the sender
name and the `instance` keyword argument (a user carrying a username). -/
structure PostSavePayload where
  sender : String
  userInstance : String
deriving DecidableEq

/-- The logical clock standing for wall-clock time (`time.time()` reads
`now`). -/
structure Clock where
  now : Nat
deriving DecidableEq

/-- Embedding of `time.sleep(t)`: advances the clock by `t` seconds. -/
def sleep (t : Nat) (c : Clock) : Clock := ⟨c.now + t⟩

/-- Embedding of `slow_signal_handler(sender, instance, **kwargs)`: sleeps for `t` seconds
(the source uses `t = 5`) and returns. -/
def slow_signal_handler (t : Nat) : Receiver PostSavePayload Clock :=
  fun _ c => (sleep t c, none)

/-- The question-1 `post_save` signal after the `@post_save.connect`
decorator has attached `slow_signal_handler`. -/
def post_save_q1 (t : Nat) : Signal PostSavePayload Clock :=
  (Signal.mk0.connect (slow_signal_handler t)).1

/-- Question-1 `User.create(username)`: builds the instance and sends
`post_save` synchronously. -/
def User_create_q1 (t : Nat) (username : String) (c : Clock) :
    Clock × Option PyErr :=
  (post_save_q1 t).send { sender := "User", userInstance := username } c

/-- The question-1 measurement: `start = time.time()`,
`User.create("testuser_sync")`, `end = time.time()`, reported `end - start`. -/
def measured_time_q1 (t : Nat) (c : Clock) : Nat :=
  let start := c.now
  let c2 := (User_create_q1 t "testuser_sync" c).1
  c2.now - start

/-- C8: dispatch is blocking — when the registered handler sleeps for `t`
seconds, the wall-clock duration measured around `User.create` (which
performs the `send`) is at least `t`; the source instantiates `t = 5`. -/
theorem dispatch_blocks_for_sleep (t : Nat) (c : Clock) :
    t ≤ measured_time_q1 t c := by
  simp [measured_time_q1, User_create_q1, post_save_q1, Signal.mk0, Signal.connect,
    Signal.send, sendList, slow_signal_handler, sleep]

/-! ### Question 2 — same-thread dispatch

The second demo prints `threading.get_ident()` in the caller
(`User.create`) and in the handler, and compares.  The state carries the
current thread identity (never changed by any operation the code performs:
nothing spawns a thread) and the list of observations printed. -/

/-- Question-2 state: the current thread identity and the
`(label, thread id)` pairs printed so far. -/
structure Q2State where
  tid : Nat
  observed : List (String × Nat)
deriving DecidableEq

/-- Embedding of `threading.get_ident()`: reads the current thread identity. -/
def get_ident (s : Q2State) : Nat := s.tid

/-- A `print(label, threading.get_ident())` statement: records the label and
the current thread identity. -/
def printThread (label : String) (s : Q2State) : Q2State :=
  { s with observed := s.observed ++ [(label, get_ident s)] }

/-- Question-2 `handler(sender, instance, **kwargs)`: prints the thread
identity it runs on. -/
def handler : Receiver PostSavePayload Q2State :=
  fun _ s => (printThread "handler" s, none)

/-- The question-2 `post_save` signal after `@post_save.connect` attached
`handler`. -/
def post_save_q2 : Signal PostSavePayload Q2State :=
  (Signal.mk0.connect handler).1

/-- Question-2 `User.create(username)`: prints the caller's thread identity
immediately before sending `post_save`. -/
def User_create_q2 (username : String) (s : Q2State) : Q2State × Option PyErr :=
  let s1 := printThread "caller" s
  post_save_q2.send { sender := "User", userInstance := username } s1

/-- C9: handlers run on the caller's thread — the thread identity observed
inside the handler during `send` equals the identity observed by the caller
immediately before the `send` call, and the dispatch leaves the thread
identity unchanged (no thread or task is spawned in this sequential
semantics). -/
theorem handler_runs_on_caller_thread (username : String) (s : Q2State) :
    (User_create_q2 username s).1.observed
        = s.observed ++ [("caller", s.tid), ("handler", s.tid)]
    ∧ (User_create_q2 username s).1.tid = s.tid := by
  constructor <;>
    simp [User_create_q2, post_save_q2, Signal.mk0, Signal.connect, Signal.send,
      sendList, handler, printThread, get_ident]

/-! ### Question 3 — same "transaction" as the caller

The third demo keeps a fake in-memory database
`FAKE_DB = {"users": [], "logs": []}`; the handler `log_user_creation`
appends a log entry, `create_user` appends a user record, sends `post_save`
and optionally raises, and the context manager `atomic` snapshots the logs
and, on an exception from its body, restores them.  Note that the
`except` clause of `atomic` does not re-raise, so under
`contextlib.contextmanager` semantics the exception is suppressed at the
`with` block: the body's exception never reaches the enclosing
`try`/`except`. -/

/-- Embedding of `FAKE_DB`: the in-memory database with its `"users"` and `"logs"`
containers.  A user record `{"username": u}` is represented by `u`. -/
structure FakeDB where
  users : List String
  logs : List String
deriving DecidableEq

/-- Embedding of `create_log(message)`: appends the message to `FAKE_DB["logs"]`. -/
def create_log (message : String) (db : FakeDB) : FakeDB :=
  { db with logs := db.logs ++ [message] }

/-- Embedding of `log_user_creation(sender, instance, **kwargs)`: the registered handler,
which logs `"User created: <username>"` via `create_log`. -/
def log_user_creation : Receiver PostSavePayload FakeDB :=
  fun p db => (create_log ("User created: " ++ p.userInstance) db, none)

/-- The question-3 `post_save` signal after `@post_save.connect` attached
`log_user_creation`. -/
def post_save_q3 : Signal PostSavePayload FakeDB :=
  (Signal.mk0.connect log_user_creation).1

/-- Embedding of `with atomic(): body` — the generator takes `backup = FAKE_DB["logs"][:]`,
yields to the body, and on an exception restores `FAKE_DB["logs"] = backup`.
Its `except` clause does not re-raise, so `contextlib` suppresses the body's
exception: the `with` statement completes normally (result `none`) even when
the body raised. -/
def atomic (body : FakeDB → FakeDB × Option PyErr) (db : FakeDB) :
    FakeDB × Option PyErr :=
  let backup := db.logs
  match body db with
  | (db2, none) => (db2, none)
  | (db2, some _) => ({ db2 with logs := backup }, none)

/-- Embedding of `create_user(username, raise_exception)`: appends the user record to
`FAKE_DB["users"]`, sends `post_save` (which runs `log_user_creation`), then
raises `Exception("Simulated error after signal")` when asked to. -/
def create_user (username : String) (raise_exception : Bool) (db : FakeDB) :
    FakeDB × Option PyErr :=
  let db1 := { db with users := db.users ++ [username] }
  match post_save_q3.send { sender := "User", userInstance := username } db1 with
  | (db2, some e) => (db2, some e)
  | (db2, none) =>
      if raise_exception then (db2, some (PyErr.exc "Simulated error after signal"))
      else (db2, none)

/-- The module's top-level run: `try: with atomic():
create_user("txn_test_user", raise_exception=True) except: print("🚨
Transaction failed.")`.  Returns the final database and whether the
top-level `except` clause ran (i.e. whether the failure message was
printed). -/
def run_transaction_demo (db : FakeDB) : FakeDB × Bool :=
  match atomic (create_user "txn_test_user" true) db with
  | (db2, none) => (db2, false)
  | (db2, some _) => (db2, true)

/-- C2 (counter-evidence): running the top-level demo on the initial
`FAKE_DB` rolls the logs back, but the exception raised by `create_user` is
suppressed by `atomic` (its `except` clause never re-raises), so the
top-level `except` clause never runs and the `"🚨 Transaction failed."`
message is never printed — contradicting the claimed propagation to the
top-level handler. -/
theorem atomic_suppresses_exception :
    run_transaction_demo { users := [], logs := [] }
      = ({ users := ["txn_test_user"], logs := [] }, false) := by rfl

/-- C3: for every initial database state, dispatching inside the `atomic`
block appends a log entry, and if the block then raises the logs equal their
initial value `S0` after the block exits, while if nothing raises the logs
retain the appended entry after the block exits. -/
theorem atomic_rolls_back_logs (db : FakeDB) (u : String) :
    (atomic (create_user u true) db).1.logs = db.logs
    ∧ (atomic (create_user u false) db).1.logs
        = db.logs ++ ["User created: " ++ u] := by
  constructor <;>
    simp [atomic, create_user, post_save_q3, Signal.mk0, Signal.connect,
      Signal.send, sendList, log_user_creation, create_log]

/-- C6: in the literal scenario starting from the empty log list, the
dispatch performed inside the scoped block that then raises leaves the final
log list `[]`, and the same dispatch without the raise leaves the final log
list `["User created: <username>"]` (the source's username is
`"txn_test_user"`). -/
theorem literal_scenario_logs :
    (run_transaction_demo { users := [], logs := [] }).1.logs = []
    ∧ (atomic (create_user "txn_test_user" false)
        { users := [], logs := [] }).1.logs = ["User created: txn_test_user"] := by
  constructor <;> rfl

/-- C10: the rollback in `atomic` restores only the logs container — for
every initial database, after the block around
`create_user u raise_exception=True` exits, the user record appended before
the signal was sent is still present in the users container, even though the
logs were rolled back. -/
theorem rollback_preserves_users (db : FakeDB) (u : String) :
    (atomic (create_user u true) db).1.users = db.users ++ [u]
    ∧ (atomic (create_user u true) db).1.logs = db.logs := by
  constructor <;>
    simp [atomic, create_user, post_save_q3, Signal.mk0, Signal.connect,
      Signal.send, sendList, log_user_creation, create_log]

end SignalsDemo
